import Mathlib

/-!
Verification of `pydantic/decorators.py`: the declarative rule-registration
surface (validator / field_validator / root_validator / field_serializer /
model_serializer / model_validator).  Python functions are embedded by the
data the decorators actually inspect: the ordered parameter names of the
callable and whether it is wrapped as a staticmethod or classmethod.
Decorator entry points return a list of emitted warnings together with
either a declaration error or the decorator closure; the closure in turn
returns either a declaration error or the produced marker.
-/

namespace PydanticDecorators

/-- A Python callable as the decorators see it: a plain function, or a
staticmethod / classmethod wrapper, carrying the ordered parameter names of
the underlying function. -/
inductive Func where
  | plain (params : List String)
  | staticMeth (params : List String)
  | classMeth (params : List String)
deriving DecidableEq, Repr

/-- Parameter names of the underlying function, unwrapping a staticmethod or
classmethod wrapper. -/
def Func.params : Func → List String
  | .plain ps => ps
  | .staticMeth ps => ps
  | .classMeth ps => ps

/-- Whether the callable is a staticmethod or classmethod wrapper, as tested
by `isinstance(f, (staticmethod, classmethod))`. -/
def Func.isStaticOrClassWrapper : Func → Bool
  | .plain _ => false
  | .staticMeth _ => true
  | .classMeth _ => true

/-- Modelled from the spec: `_internal._decorators.is_instance_method_from_sig`
is not under src/.  Per section 4.1 of the spec, a callable is detected as
instance-bound when, after unwrapping a classmethod/staticmethod wrapper, the
first parameter of its signature is a true `self`. -/
def is_instance_method_from_sig (f : Func) : Bool :=
  match f.params.head? with
  | some p => p == "self"
  | none => false

/-- Modelled from the spec:
`_internal._decorators.ensure_classmethod_based_on_signature` is not under
src/.  Per section 4.1 of the spec, if the function is not already a
class/static method wrapper and does not already look like an instance
method, it is auto-wrapped as a class-bound callable. -/
def ensure_classmethod_based_on_signature (f : Func) : Func :=
  match f with
  | .plain ps => if is_instance_method_from_sig f then f else .classMeth ps
  | .staticMeth ps => .staticMeth ps
  | .classMeth ps => .classMeth ps

/-- A positional argument handed to a field-level decorator factory: a string
field name, a value of Python type `FunctionType`, or any other value. -/
inductive Arg where
  | str (s : String)
  | func (f : Func)
  | other
deriving DecidableEq, Repr

/-- `isinstance(a, str)`. -/
def Arg.isStr : Arg → Bool
  | .str _ => true
  | _ => false

/-- `isinstance(a, FunctionType)`. -/
def Arg.isFunctionType : Arg → Bool
  | .func _ => true
  | _ => false

/-- A declaration-time exception: `PydanticUserError(message, code)` or a bare
`TypeError(message)`. -/
inductive PyError where
  | userError (message : String) (code : String)
  | typeError (message : String)
deriving DecidableEq, Repr

/-- The descriptor record stored on the marker: one constructor per
`DecoratorInfo` dataclass used by the source. -/
inductive DecoratorInfo where
  | validatorInfo (fields : List Arg) (mode : String) (each_item : Bool)
      (always : Bool) (check_fields : Option Bool)
  | fieldValidatorInfo (fields : List Arg) (mode : String) (check_fields : Option Bool)
  | rootValidatorInfo (mode : String)
  | fieldSerializerInfo (fields : List Arg) (mode : String) (type_ : String)
      (json_return_type : Option String) (when_used : String) (check_fields : Option Bool)
  | modelSerializerInfo (mode : String) (json_return_type : Option String)
  | modelValidatorInfo (mode : String)
deriving DecidableEq, Repr

/-- The mode recorded in a descriptor record. -/
def DecoratorInfo.mode : DecoratorInfo → String
  | .validatorInfo _ m _ _ _ => m
  | .fieldValidatorInfo _ m _ => m
  | .rootValidatorInfo m => m
  | .fieldSerializerInfo _ m _ _ _ _ => m
  | .modelSerializerInfo m _ => m
  | .modelValidatorInfo m => m

/-- The invocation-adapter tag attached to a marker, one constructor per shim
expression in the source (the `wrap` / `shim` arguments). -/
inductive Shim where
  | v1FieldValidator
  | genericValidator (mode : String)
  | v1RootValidator (pre : Bool)
  | genericSerializer (mode : String) (type_ : String)
  | genericModelSerializer (mode : String)
deriving DecidableEq, Repr

/-- `_decorators.PydanticDecoratorMarker(f, info, shim)`: the object attached
to the class namespace. -/
structure PydanticDecoratorMarker where
  wrapped : Func
  info : DecoratorInfo
  shim : Shim
deriving DecidableEq, Repr

/-- `_ALLOW_REUSE_WARNING_MESSAGE` from the source. -/
def _ALLOW_REUSE_WARNING_MESSAGE : String :=
  "`allow_reuse` is deprecated and will be ignored; it should no longer be necessary"

/-- The deprecation warning emitted by `validator` for V1-style usage
(message truncated to its first clause). -/
def v1ValidatorDeprecatedWarning : String :=
  "Pydantic V1 style `@validator` validators are deprecated."

/-- The `validator-no-fields` error raised by `validator` (message truncated
to its first sentence). -/
def validatorNoFieldsError : PyError :=
  .userError "validators should be used with fields and keyword arguments, not bare."
    "validator-no-fields"

/-- The `validator-invalid-fields` error raised by `validator` (message
truncated to its first sentence). -/
def validatorInvalidFieldsError : PyError :=
  .userError "validator fields should be passed as separate string args."
    "validator-invalid-fields"

/-- The `validator-instance-method` error raised by `validator`. -/
def validatorInstanceMethodError : PyError :=
  .userError "`@validator` cannot be applied to instance methods"
    "validator-instance-method"

/-- The `validator-no-fields` error raised by `field_validator` (message
truncated to its first sentence). -/
def fieldValidatorNoFieldsError : PyError :=
  .userError "field_validators should be used with fields and keyword arguments, not bare."
    "validator-no-fields"

/-- The `validator-invalid-fields` error raised by `field_validator` (message
truncated to its first sentence). -/
def fieldValidatorInvalidFieldsError : PyError :=
  .userError "field_validator fields should be passed as separate string args."
    "validator-invalid-fields"

/-- The `validator-instance-method` error raised by `field_validator`. -/
def fieldValidatorInstanceMethodError : PyError :=
  .userError "`@field_validator` cannot be applied to instance methods"
    "validator-instance-method"

/-- The `root-validator-pre-skip` error raised by `root_validator`. -/
def rootValidatorPreSkipError : PyError :=
  .userError
    "If you use `@root_validator` with pre=False (the default) you MUST specify `skip_on_failure=True`."
    "root-validator-pre-skip"

/-- The `TypeError` raised by the decorator returned by `root_validator`. -/
def rootValidatorInstanceMethodError : PyError :=
  .typeError "`@root_validator` cannot be applied to instance methods"

/-- The `model-serializer-instance-method` error raised by the decorator
returned by `model_serializer`. -/
def modelSerializerInstanceMethodError : PyError :=
  .userError "`@model_serializer` must be applied to instance methods"
    "model-serializer-instance-method"

/-- The inner `dec` closure of `validator` (decorators.py lines 165-180):
rejects instance-bound callables, auto-applies classmethod, and builds the
marker with a `ValidatorDecoratorInfo` and the v1 field-validator shim. -/
def validatorDec (fields : List Arg) (mode : String) (each_item : Bool)
    (always : Bool) (check_fields : Option Bool) (f : Func) :
    Except PyError PydanticDecoratorMarker :=
  if is_instance_method_from_sig f then
    .error validatorInstanceMethodError
  else
    .ok { wrapped := ensure_classmethod_based_on_signature f
          info := .validatorInfo fields mode each_item always check_fields
          shim := .v1FieldValidator }

/-- `validator(__field, *fields, pre, each_item, always, check_fields,
allow_reuse)` (decorators.py lines 118-182).  Returns the warnings emitted in
order together with either the declaration error raised or the decorator. -/
def validator (field0 : Arg) (rest : List Arg) (pre : Bool) (each_item : Bool)
    (always : Bool) (check_fields : Option Bool) (allow_reuse : Bool) :
    List String × Except PyError (Func → Except PyError PydanticDecoratorMarker) :=
  let reuseWarns := if allow_reuse then [_ALLOW_REUSE_WARNING_MESSAGE] else []
  let fields := field0 :: rest
  if field0.isFunctionType then
    (reuseWarns, .error validatorNoFieldsError)
  else if ¬ (fields.all Arg.isStr) then
    (reuseWarns, .error validatorInvalidFieldsError)
  else
    (reuseWarns ++ [v1ValidatorDeprecatedWarning],
      .ok (validatorDec fields (if pre then "before" else "after") each_item always check_fields))

/-- The inner `dec` closure of `field_validator` (decorators.py lines
234-249). -/
def fieldValidatorDec (fields : List Arg) (mode : String) (check_fields : Option Bool)
    (f : Func) : Except PyError PydanticDecoratorMarker :=
  if is_instance_method_from_sig f then
    .error fieldValidatorInstanceMethodError
  else
    .ok { wrapped := ensure_classmethod_based_on_signature f
          info := .fieldValidatorInfo fields mode check_fields
          shim := .genericValidator mode }

/-- `field_validator(__field, *fields, mode, check_fields)` (decorators.py
lines 205-251).  Emits no warnings. -/
def field_validator (field0 : Arg) (rest : List Arg) (mode : String)
    (check_fields : Option Bool) :
    Except PyError (Func → Except PyError PydanticDecoratorMarker) :=
  let fields := field0 :: rest
  if field0.isFunctionType then
    .error fieldValidatorNoFieldsError
  else if ¬ (fields.all Arg.isStr) then
    .error fieldValidatorInvalidFieldsError
  else
    .ok (fieldValidatorDec fields mode check_fields)

/-- The inner `dec` closure of `root_validator` (decorators.py lines
309-315): raises `TypeError` on instance-bound callables, auto-applies
classmethod, and builds the marker with a `RootValidatorDecoratorInfo` and
the v1 root-validator shim carrying `pre`. -/
def rootValidatorDec (mode : String) (pre : Bool) (f : Func) :
    Except PyError PydanticDecoratorMarker :=
  if is_instance_method_from_sig f then
    .error rootValidatorInstanceMethodError
  else
    .ok { wrapped := ensure_classmethod_based_on_signature f
          info := .rootValidatorInfo mode
          shim := .v1RootValidator pre }

/-- `root_validator(pre, skip_on_failure, allow_reuse)` (decorators.py lines
288-317): warns on `allow_reuse`, then enforces the pre/skip_on_failure gate
before returning the decorator. -/
def root_validator (pre : Bool) (skip_on_failure : Bool) (allow_reuse : Bool) :
    List String × Except PyError (Func → Except PyError PydanticDecoratorMarker) :=
  let reuseWarns := if allow_reuse then [_ALLOW_REUSE_WARNING_MESSAGE] else []
  if pre = false ∧ skip_on_failure ≠ true then
    (reuseWarns, .error rootValidatorPreSkipError)
  else
    (reuseWarns, .ok (rootValidatorDec (if pre then "before" else "after") pre))

/-- `field_serializer(*fields, mode, json_return_type, when_used,
check_fields)` (decorators.py lines 377-418): performs no validation of the
target list and returns `dec`, which classifies the callable as `field` when
instance-bound and `general` otherwise and always produces a marker. -/
def field_serializer (fields : List Arg) (mode : String)
    (json_return_type : Option String) (when_used : String)
    (check_fields : Option Bool) (f : Func) :
    Except PyError PydanticDecoratorMarker :=
  let type_ : String := if is_instance_method_from_sig f then "field" else "general"
  .ok { wrapped := f
        info := .fieldSerializerInfo fields mode type_ json_return_type when_used check_fields
        shim := .genericSerializer mode type_ }

/-- The inner `dec` closure of `model_serializer` (decorators.py lines
438-450): rejects staticmethod/classmethod wrappers and callables that are
not instance-bound. -/
def modelSerializerDec (mode : String) (json_return_type : Option String)
    (f : Func) : Except PyError PydanticDecoratorMarker :=
  if f.isStaticOrClassWrapper ∨ ¬ is_instance_method_from_sig f then
    .error modelSerializerInstanceMethodError
  else
    .ok { wrapped := f
          info := .modelSerializerInfo mode json_return_type
          shim := .genericModelSerializer mode }

/-- Result of calling `model_serializer`: either the decorator itself (when
`__f is None`) or the marker from applying it directly (bare usage). -/
inductive ModelSerializerResult where
  | decorator (d : Func → Except PyError PydanticDecoratorMarker)
  | marker (m : PydanticDecoratorMarker)

/-- `model_serializer(__f, mode, json_return_type)` (decorators.py lines
421-455): returns `dec` when `__f is None`, else `dec(__f)`. -/
def model_serializer (f0 : Option Func) (mode : String)
    (json_return_type : Option String) : Except PyError ModelSerializerResult :=
  match f0 with
  | none => .ok (.decorator (modelSerializerDec mode json_return_type))
  | some f => (modelSerializerDec mode json_return_type f).map .marker

/-- `model_validator(mode)` (decorators.py lines 571-582): the returned `dec`
performs no check at all and always produces a marker recording the mode,
with the generic-validator shim. -/
def model_validator (mode : String) (f : Func) : PydanticDecoratorMarker :=
  { wrapped := f
    info := .modelValidatorInfo mode
    shim := .genericValidator mode }

/-- Claim C1: calling `root_validator` with pre=False (explicitly or by
default) and skip_on_failure not equal to True always raises the
pre/skip declaration error before any decorator (hence any marker) is
produced; with pre=False and skip_on_failure=True it succeeds; with pre=True
it succeeds regardless of skip_on_failure; and the returned decorator
produces a marker on every non-instance-bound function. -/
theorem root_validator_pre_skip_gate (pre skip allow_reuse : Bool) :
    (pre = false → skip ≠ true →
      (root_validator pre skip allow_reuse).2 = .error rootValidatorPreSkipError) ∧
    (pre = false → skip = true →
      (root_validator pre skip allow_reuse).2 = .ok (rootValidatorDec "after" false)) ∧
    (pre = true →
      (root_validator pre skip allow_reuse).2 = .ok (rootValidatorDec "before" true)) ∧
    (∀ (mode : String) (p : Bool) (f : Func), is_instance_method_from_sig f = false →
      rootValidatorDec mode p f = .ok
        { wrapped := ensure_classmethod_based_on_signature f
          info := .rootValidatorInfo mode
          shim := .v1RootValidator p }) := by
  refine ⟨?_, ?_, ?_, ?_⟩
  · rintro rfl h
    simp [root_validator, h]
  · rintro rfl rfl
    simp [root_validator]
  · rintro rfl
    simp [root_validator]
  · intro mode p f hf
    simp [rootValidatorDec, hf]

/-- Witness for C1 at concrete inputs. -/
theorem root_validator_pre_skip_gate_witness :
    (root_validator false false false).2 = .error rootValidatorPreSkipError ∧
    (root_validator false true false).2 = .ok (rootValidatorDec "after" false) ∧
    (root_validator true false false).2 = .ok (rootValidatorDec "before" true) ∧
    rootValidatorDec "after" false (Func.plain ["cls", "values"]) = .ok
      { wrapped := ensure_classmethod_based_on_signature (Func.plain ["cls", "values"])
        info := .rootValidatorInfo "after"
        shim := .v1RootValidator false } :=
  ⟨(root_validator_pre_skip_gate false false false).1 rfl (by decide),
   (root_validator_pre_skip_gate false true false).2.1 rfl rfl,
   (root_validator_pre_skip_gate true false false).2.2.1 rfl,
   (root_validator_pre_skip_gate true false false).2.2.2 "after" false
     (Func.plain ["cls", "values"]) (by decide)⟩

/-- Claim C3: for each of `validator`, `field_validator` and `root_validator`,
the returned decorator applied to an instance-bound function raises the
cannot-apply-to-instance-methods declaration error and no marker is produced;
applied to a function not classified as instance-bound it does not raise this
error and a marker is produced. -/
theorem instance_method_rejection (fields : List Arg) (mode : String)
    (each_item always pre : Bool) (check_fields : Option Bool) (f : Func) :
    (is_instance_method_from_sig f = true →
      validatorDec fields mode each_item always check_fields f =
        .error validatorInstanceMethodError ∧
      fieldValidatorDec fields mode check_fields f =
        .error fieldValidatorInstanceMethodError ∧
      rootValidatorDec mode pre f = .error rootValidatorInstanceMethodError) ∧
    (is_instance_method_from_sig f = false →
      (∃ m, validatorDec fields mode each_item always check_fields f = .ok m) ∧
      (∃ m, fieldValidatorDec fields mode check_fields f = .ok m) ∧
      (∃ m, rootValidatorDec mode pre f = .ok m)) := by
  constructor
  · intro h
    refine ⟨?_, ?_, ?_⟩ <;> simp [validatorDec, fieldValidatorDec, rootValidatorDec, h]
  · intro h
    refine ⟨⟨{ wrapped := ensure_classmethod_based_on_signature f
               info := .validatorInfo fields mode each_item always check_fields
               shim := .v1FieldValidator }, ?_⟩,
            ⟨{ wrapped := ensure_classmethod_based_on_signature f
               info := .fieldValidatorInfo fields mode check_fields
               shim := .genericValidator mode }, ?_⟩,
            ⟨{ wrapped := ensure_classmethod_based_on_signature f
               info := .rootValidatorInfo mode
               shim := .v1RootValidator pre }, ?_⟩⟩ <;>
      simp [validatorDec, fieldValidatorDec, rootValidatorDec, h]

/-- Witness for C3 at concrete inputs. -/
theorem instance_method_rejection_witness :
    validatorDec [Arg.str "x"] "after" false false none (Func.plain ["self", "v"]) =
      .error validatorInstanceMethodError ∧
    (∃ m, validatorDec [Arg.str "x"] "after" false false none (Func.plain ["cls", "v"]) = .ok m) :=
  ⟨((instance_method_rejection [Arg.str "x"] "after" false false false none
      (Func.plain ["self", "v"])).1 (by decide)).1,
   ((instance_method_rejection [Arg.str "x"] "after" false false false none
      (Func.plain ["cls", "v"])).2 (by decide)).1⟩

/-- Claim C4: applying `model_serializer` to a staticmethod or classmethod
wrapper, or to a callable that is not instance-bound, raises the
must-be-applied-to-instance-methods declaration error; applying it to an
instance-bound plain function succeeds and returns a marker. -/
theorem model_serializer_instance_binding (mode : String) (jrt : Option String)
    (f : Func) :
    (f.isStaticOrClassWrapper = true ∨ is_instance_method_from_sig f = false →
      modelSerializerDec mode jrt f = .error modelSerializerInstanceMethodError) ∧
    (f.isStaticOrClassWrapper = false → is_instance_method_from_sig f = true →
      modelSerializerDec mode jrt f = .ok
        { wrapped := f
          info := .modelSerializerInfo mode jrt
          shim := .genericModelSerializer mode }) := by
  constructor
  · rintro (h | h) <;> simp [modelSerializerDec, h]
  · intro h1 h2
    simp [modelSerializerDec, h1, h2]

/-- Witness for C4 at concrete inputs. -/
theorem model_serializer_instance_binding_witness :
    modelSerializerDec "plain" none (Func.staticMeth ["v"]) =
      .error modelSerializerInstanceMethodError ∧
    modelSerializerDec "plain" none (Func.plain ["cls", "v"]) =
      .error modelSerializerInstanceMethodError ∧
    modelSerializerDec "plain" none (Func.plain ["self", "v"]) = .ok
      { wrapped := Func.plain ["self", "v"]
        info := .modelSerializerInfo "plain" none
        shim := .genericModelSerializer "plain" } :=
  ⟨(model_serializer_instance_binding "plain" none (Func.staticMeth ["v"])).1 (Or.inl rfl),
   (model_serializer_instance_binding "plain" none (Func.plain ["cls", "v"])).1
     (Or.inr (by decide)),
   (model_serializer_instance_binding "plain" none (Func.plain ["self", "v"])).2
     rfl (by decide)⟩

/-- Claim C2 counterexample: `field_serializer` with a callable (FunctionType)
first target performs no target validation and produces a marker with no
error, contradicting the claim that every field-level entry point raises a
malformed-target declaration error. -/
theorem field_serializer_callable_target_marker :
    field_serializer [Arg.func (Func.plain ["cls", "v"])] "plain" none "always" none
        (Func.plain ["cls", "v", "info"]) =
      .ok { wrapped := Func.plain ["cls", "v", "info"]
            info := .fieldSerializerInfo [Arg.func (Func.plain ["cls", "v"])] "plain"
              "general" none "always" none
            shim := .genericSerializer "plain" "general" } := rfl

/-- Claim C2 amended: for `validator` and `field_validator`, a callable
(FunctionType) first positional target raises the bare-decorator
malformed-target error and a non-string target raises the invalid-fields
malformed-target error, before any decorator (hence any marker) is produced;
`field_serializer` performs no target validation and always produces a
marker, whatever the targets. -/
theorem target_name_validation_amended (field0 : Arg) (rest : List Arg)
    (pre each_item always allow_reuse : Bool) (check_fields : Option Bool)
    (mode : String) :
    (field0.isFunctionType = true →
      (validator field0 rest pre each_item always check_fields allow_reuse).2 =
        .error validatorNoFieldsError ∧
      field_validator field0 rest mode check_fields = .error fieldValidatorNoFieldsError) ∧
    (field0.isFunctionType = false → (field0 :: rest).all Arg.isStr = false →
      (validator field0 rest pre each_item always check_fields allow_reuse).2 =
        .error validatorInvalidFieldsError ∧
      field_validator field0 rest mode check_fields =
        .error fieldValidatorInvalidFieldsError) ∧
    (∀ (f : Func), ∃ m,
      field_serializer (field0 :: rest) mode none "always" check_fields f = .ok m) := by
  refine ⟨?_, ?_, ?_⟩
  · intro h
    constructor <;> simp [validator, field_validator, h]
  · intro h1 h2
    constructor <;> simp [validator, field_validator, h1, h2]
  · intro f
    exact ⟨_, rfl⟩

/-- Witness for the amended C2 at concrete inputs. -/
theorem target_name_validation_amended_witness :
    ((validator (Arg.func (Func.plain ["cls", "v"])) [] false false false none false).2 =
        .error validatorNoFieldsError ∧
      field_validator (Arg.func (Func.plain ["cls", "v"])) [] "after" none =
        .error fieldValidatorNoFieldsError) ∧
    ((validator Arg.other [] false false false none false).2 =
        .error validatorInvalidFieldsError ∧
      field_validator Arg.other [] "after" none =
        .error fieldValidatorInvalidFieldsError) :=
  ⟨(target_name_validation_amended (Arg.func (Func.plain ["cls", "v"])) []
      false false false false none "after").1 rfl,
   (target_name_validation_amended Arg.other []
      false false false false none "after").2.1 rfl (by decide)⟩

/-- Claim C5: calling the same entry point (`field_validator`) twice with the
same target names, mode and options, and applying both resulting decorators
to the same function, produces markers whose descriptor records are equal by
value (and the markers themselves are equal). -/
theorem descriptor_construction_idempotent (field0 : Arg) (rest : List Arg)
    (mode : String) (check_fields : Option Bool) (f : Func)
    (d1 d2 : Func → Except PyError PydanticDecoratorMarker)
    (m1 m2 : PydanticDecoratorMarker)
    (h1 : field_validator field0 rest mode check_fields = .ok d1)
    (h2 : field_validator field0 rest mode check_fields = .ok d2)
    (hm1 : d1 f = .ok m1) (hm2 : d2 f = .ok m2) :
    m1.info = m2.info ∧ m1 = m2 := by
  rw [h1] at h2
  injection h2 with hd
  subst hd
  rw [hm1] at hm2
  injection hm2 with hm
  subst hm
  exact ⟨rfl, rfl⟩

/-- Witness for C5 at concrete inputs. -/
theorem descriptor_construction_idempotent_witness :
    PydanticDecoratorMarker.info
        { wrapped := Func.classMeth ["cls", "v"]
          info := .fieldValidatorInfo [Arg.str "x"] "after" none
          shim := .genericValidator "after" } =
      PydanticDecoratorMarker.info
        { wrapped := Func.classMeth ["cls", "v"]
          info := .fieldValidatorInfo [Arg.str "x"] "after" none
          shim := .genericValidator "after" } ∧
    ({ wrapped := Func.classMeth ["cls", "v"]
       info := .fieldValidatorInfo [Arg.str "x"] "after" none
       shim := .genericValidator "after" } : PydanticDecoratorMarker) =
      { wrapped := Func.classMeth ["cls", "v"]
        info := .fieldValidatorInfo [Arg.str "x"] "after" none
        shim := .genericValidator "after" } :=
  descriptor_construction_idempotent (Arg.str "x") [] "after" none
    (Func.plain ["cls", "v"])
    (fieldValidatorDec [Arg.str "x"] "after" none)
    (fieldValidatorDec [Arg.str "x"] "after" none)
    _ _ rfl rfl rfl rfl

/-- Claim C6: for the legacy entry points `validator` and `root_validator`,
the mode recorded in the descriptor is before exactly when pre=True was
supplied and after in every other case; and `validator` called with just a
field name and no options emits the non-fatal deprecation warning, mode
resolves to after, and the returned decorator works. -/
theorem legacy_mode_resolution (pre each_item always allow_reuse : Bool)
    (check_fields : Option Bool) (s : String) (f : Func)
    (hf : is_instance_method_from_sig f = false) :
    (∃ d, (validator (Arg.str s) [] pre each_item always check_fields allow_reuse).2 = .ok d ∧
      ∃ m, d f = .ok m ∧ m.info.mode = (if pre then "before" else "after")) ∧
    (∃ d, (root_validator pre true allow_reuse).2 = .ok d ∧
      ∃ m, d f = .ok m ∧ m.info.mode = (if pre then "before" else "after")) ∧
    ((validator (Arg.str s) [] false false false none false).1 =
        [v1ValidatorDeprecatedWarning] ∧
      ∃ d, (validator (Arg.str s) [] false false false none false).2 = .ok d ∧
        ∃ m, d f = .ok m ∧ m.info.mode = "after") := by
  refine ⟨?_, ?_, ?_, ?_⟩
  · refine ⟨validatorDec [Arg.str s] (if pre then "before" else "after")
      each_item always check_fields, ?_,
      { wrapped := ensure_classmethod_based_on_signature f
        info := .validatorInfo [Arg.str s] (if pre then "before" else "after")
          each_item always check_fields
        shim := .v1FieldValidator }, ?_, ?_⟩
    · simp [validator, Arg.isFunctionType, Arg.isStr]
    · simp [validatorDec, hf]
    · simp [DecoratorInfo.mode]
  · refine ⟨rootValidatorDec (if pre then "before" else "after") pre, ?_,
      { wrapped := ensure_classmethod_based_on_signature f
        info := .rootValidatorInfo (if pre then "before" else "after")
        shim := .v1RootValidator pre }, ?_, ?_⟩
    · cases pre <;> simp [root_validator]
    · simp [rootValidatorDec, hf]
    · simp [DecoratorInfo.mode]
  · simp [validator, Arg.isFunctionType, Arg.isStr]
  · refine ⟨validatorDec [Arg.str s] "after" false false none, ?_,
      { wrapped := ensure_classmethod_based_on_signature f
        info := .validatorInfo [Arg.str s] "after" false false none
        shim := .v1FieldValidator }, ?_, rfl⟩
    · simp [validator, Arg.isFunctionType, Arg.isStr]
    · simp [validatorDec, hf]

/-- Witness for C6 at concrete inputs. -/
theorem legacy_mode_resolution_witness :
    (validator (Arg.str "name") [] false false false none false).1 =
      [v1ValidatorDeprecatedWarning] :=
  ((legacy_mode_resolution false false false false none "name"
    (Func.plain ["cls", "v"]) (by decide)).2.2).1

/-- Claim C7 counterexample: `field_serializer` applied to an instance-bound
function (first parameter a true `self`) does not raise: it produces a
marker, with serializer type `field` recorded in the descriptor,
contradicting the claim that instance-bound functions are rejected. -/
theorem field_serializer_instance_method_marker :
    is_instance_method_from_sig (Func.plain ["self", "v", "info"]) = true ∧
    field_serializer [Arg.str "x"] "plain" none "always" none
        (Func.plain ["self", "v", "info"]) =
      .ok { wrapped := Func.plain ["self", "v", "info"]
            info := .fieldSerializerInfo [Arg.str "x"] "plain" "field" none "always" none
            shim := .genericSerializer "plain" "field" } :=
  ⟨rfl, rfl⟩

/-- Claim C7 amended: `field_serializer` never rejects its function; a
function detected as instance-bound is accepted and classified with
serializer type `field` in the descriptor (and `general` otherwise), and a
marker is always produced. -/
theorem field_serializer_type_tag (fields : List Arg) (mode : String)
    (jrt : Option String) (when_used : String) (check_fields : Option Bool)
    (f : Func) :
    field_serializer fields mode jrt when_used check_fields f =
      .ok { wrapped := f
            info := .fieldSerializerInfo fields mode
              (if is_instance_method_from_sig f then "field" else "general")
              jrt when_used check_fields
            shim := .genericSerializer mode
              (if is_instance_method_from_sig f then "field" else "general") } := rfl

/-- Claim C8 counterexample: `model_validator` with mode after applied to a
function that is not instance-bound raises nothing and produces a marker,
contradicting the claim of an invalid-attachment-point declaration error. -/
theorem model_validator_after_unbound_marker :
    is_instance_method_from_sig (Func.plain ["cls", "v"]) = false ∧
    model_validator "after" (Func.plain ["cls", "v"]) =
      { wrapped := Func.plain ["cls", "v"]
        info := .modelValidatorInfo "after"
        shim := .genericValidator "after" } :=
  ⟨rfl, rfl⟩

/-- Claim C8 amended: the decorator returned by `model_validator` performs no
instance-binding check at declaration time: for every mode (including after)
and every function, instance-bound or not, it produces a marker recording
exactly the given mode, the unchanged function and the generic-validator
shim. -/
theorem model_validator_no_binding_check (mode : String) (f : Func) :
    (model_validator mode f).wrapped = f ∧
    (model_validator mode f).info = .modelValidatorInfo mode ∧
    (model_validator mode f).shim = .genericValidator mode :=
  ⟨rfl, rfl, rfl⟩

/-- Helper: calling `validator` with allow_reuse=True only prepends the
allow-reuse warning; the error-or-decorator component is unchanged. -/
theorem validator_allow_reuse_shift (field0 : Arg) (rest : List Arg)
    (pre each_item always : Bool) (check_fields : Option Bool) :
    validator field0 rest pre each_item always check_fields true =
      (_ALLOW_REUSE_WARNING_MESSAGE ::
        (validator field0 rest pre each_item always check_fields false).1,
       (validator field0 rest pre each_item always check_fields false).2) := by
  unfold validator
  by_cases h1 : field0.isFunctionType = true
  · simp [h1]
  · by_cases h2 : (field0 :: rest).all Arg.isStr = true
    · simp [h1, h2]
    · simp [h1, h2]

/-- Helper: calling `root_validator` with allow_reuse=True only prepends the
allow-reuse warning; the error-or-decorator component is unchanged. -/
theorem root_validator_allow_reuse_shift (pre skip : Bool) :
    root_validator pre skip true =
      (_ALLOW_REUSE_WARNING_MESSAGE :: (root_validator pre skip false).1,
       (root_validator pre skip false).2) := by
  cases pre <;> cases skip <;> rfl

/-- Claim C9: supplying allow_reuse=True to `validator` or `root_validator`
leaves the error-or-decorator outcome identical to the run with allow_reuse
omitted (so the same marker, descriptor and shim are produced), and the only
difference in the emitted warnings is the extra allow-reuse deprecation
warning. -/
theorem allow_reuse_warning_only (field0 : Arg) (rest : List Arg)
    (pre each_item always skip : Bool) (check_fields : Option Bool) :
    (validator field0 rest pre each_item always check_fields true).2 =
      (validator field0 rest pre each_item always check_fields false).2 ∧
    (validator field0 rest pre each_item always check_fields true).1 =
      _ALLOW_REUSE_WARNING_MESSAGE ::
        (validator field0 rest pre each_item always check_fields false).1 ∧
    (root_validator pre skip true).2 = (root_validator pre skip false).2 ∧
    (root_validator pre skip true).1 =
      _ALLOW_REUSE_WARNING_MESSAGE :: (root_validator pre skip false).1 := by
  have hv := validator_allow_reuse_shift field0 rest pre each_item always check_fields
  have hr := root_validator_allow_reuse_shift pre skip
  exact ⟨by rw [hv], by rw [hv], by rw [hr], by rw [hr]⟩

/-- Claim C10: `model_serializer` is usable bare: for an instance-bound plain
function f, `model_serializer(f)` (with the default mode plain and no JSON
return type) produces exactly the marker that the decorator returned by
`model_serializer()` produces on f, with f as the wrapped function and mode
plain / json_return_type None in the descriptor; and with no function it
returns the decorator itself. -/
theorem model_serializer_bare_decorator (f : Func)
    (hw : f.isStaticOrClassWrapper = false)
    (hi : is_instance_method_from_sig f = true) :
    ∃ m, model_serializer (some f) "plain" none = .ok (.marker m) ∧
      modelSerializerDec "plain" none f = .ok m ∧
      m.wrapped = f ∧
      m.info = .modelSerializerInfo "plain" none ∧
      model_serializer none "plain" none =
        .ok (.decorator (modelSerializerDec "plain" none)) := by
  refine ⟨{ wrapped := f
            info := .modelSerializerInfo "plain" none
            shim := .genericModelSerializer "plain" }, ?_, ?_, rfl, rfl, rfl⟩
  · simp [model_serializer, modelSerializerDec, hw, hi, Except.map]
  · simp [modelSerializerDec, hw, hi]

/-- Witness for C10 at a concrete instance-bound function. -/
theorem model_serializer_bare_decorator_witness :
    ∃ m, model_serializer (some (Func.plain ["self"])) "plain" none = .ok (.marker m) ∧
      modelSerializerDec "plain" none (Func.plain ["self"]) = .ok m ∧
      m.wrapped = Func.plain ["self"] ∧
      m.info = .modelSerializerInfo "plain" none ∧
      model_serializer none "plain" none =
        .ok (.decorator (modelSerializerDec "plain" none)) :=
  model_serializer_bare_decorator (Func.plain ["self"]) rfl (by decide)

end PydanticDecorators
